import Mathlib

set_option linter.unusedVariables false

/-!
Shallow embedding of `src/libs/Microsoft.MixedReality.WebRTC.Native/src/local_video_track.cpp`
(MixedReality-WebRTC), the `LocalVideoTrack` adapter.

Modelling choices:
* Nullable pointers and `rtc::scoped_refptr` references are `Option Nat` (the `Nat` is an
  opaque object identity); the opaque interop handle is a plain `Nat`.
* The external Track object is modelled by `TrackState`, which records its enabled flag,
  the rotation-applied flags of every `AddOrUpdateSink` call it has received, and how many
  `RemoveSink` calls it has received.
* The engine peer session (`webrtc::PeerConnectionInterface`) is modelled by
  `EnginePeerState`, which records the senders passed to `RemoveTrack`, in order.
* The parent `PeerConnection` collaborator is modelled by `ParentSessionState`, a counter
  of `RemoveLocalVideoTrack` calls; the body of that operation is not part of this file's
  source and is modelled from the spec (see its doc comment).
* `RTC_CHECK` aborts the process on failure; fallible operations therefore return
  `Option`, with `none` standing for the fatal abort.
* The destructor additionally returns the ordered list of its externally visible steps,
  so that ordering claims can be stated.
-/

/-- State of the engine-side video track (`webrtc::VideoTrackInterface`): its enabled
flag, the `rotation_applied` flag of each `AddOrUpdateSink` call received so far, and the
number of `RemoveSink` calls received so far. -/
structure TrackState where
  enabled : Bool
  attachEvents : List Bool
  detachCount : Nat
deriving DecidableEq, Repr

/-- State of the engine-level peer session (`webrtc::PeerConnectionInterface`): the list
of sender identities passed to `RemoveTrack`, in call order. -/
structure EnginePeerState where
  removeTrackCalls : List Nat
deriving DecidableEq, Repr

/-- `webrtc::PeerConnectionInterface::RemoveTrack(sender)`: the engine records the call.
Only the call trace is observable at this boundary. -/
def EnginePeerState.RemoveTrack (peer : EnginePeerState) (sender : Nat) : EnginePeerState :=
  { peer with removeTrackCalls := peer.removeTrackCalls ++ [sender] }

/-- State of the parent `PeerConnection` collaborator: how many times its
`RemoveLocalVideoTrack` operation has been invoked. -/
structure ParentSessionState where
  removeCount : Nat
deriving DecidableEq, Repr

/-- The adapter object `LocalVideoTrack`: a nullable raw back-pointer `owner_` to the
parent `PeerConnection`, a shared reference `track_` to the engine track, a nullable
shared reference `sender_` to the RTP sender, and the opaque `interop_handle_`. -/
structure LocalVideoTrack where
  owner_ : Option Nat
  track_ : Nat
  sender_ : Option Nat
  interop_handle_ : Nat
deriving DecidableEq, Repr

/-- The constructor `LocalVideoTrack::LocalVideoTrack(owner, track, sender,
interop_handle)`: stores the four references, runs `RTC_CHECK(owner_)` (modelled as
returning `none` on failure), then calls `track_->AddOrUpdateSink(this, sink_settings)`
with `sink_settings.rotation_applied = true` (modelled as appending `true` to the track's
attach-event list). -/
def LocalVideoTrack.construct (owner : Option Nat) (track : Nat) (sender : Option Nat)
    (interop_handle : Nat) (ts : TrackState) : Option (LocalVideoTrack × TrackState) :=
  let self : LocalVideoTrack :=
    { owner_ := owner, track_ := track, sender_ := sender,
      interop_handle_ := interop_handle }
  if self.owner_.isSome then
    some (self, { ts with attachEvents := ts.attachEvents ++ [true] })
  else
    none

/-- `LocalVideoTrack::IsEnabled()`: returns `track_->enabled()`, a pure read of the
track's enabled flag. -/
def LocalVideoTrack.IsEnabled (self : LocalVideoTrack) (ts : TrackState) : Bool :=
  ts.enabled

/-- `LocalVideoTrack::SetEnabled(enabled)`: calls `track_->set_enabled(enabled)`; only
the track state changes, the adapter caches nothing. -/
def LocalVideoTrack.SetEnabled (self : LocalVideoTrack) (enabled : Bool)
    (ts : TrackState) : TrackState :=
  { ts with enabled := enabled }

/-- `LocalVideoTrack::RemoveFromPeerConnection(peer)`: if `sender_` is non-null, call
`peer.RemoveTrack(sender_)` then set `sender_ = nullptr` and `owner_ = nullptr`;
otherwise do nothing. -/
def LocalVideoTrack.RemoveFromPeerConnection (self : LocalVideoTrack)
    (peer : EnginePeerState) : LocalVideoTrack × EnginePeerState :=
  match self.sender_ with
  | some s =>
    ({ self with sender_ := none, owner_ := none }, peer.RemoveTrack s)
  | none => (self, peer)

/-- Modelled from the spec: the body of `PeerConnection::RemoveLocalVideoTrack` lives in
`peer_connection.cpp`, which is not among the provided sources. Per the spec, the
parent's `remove-local-video-track(adapter)` operation "must clear the Adapter's
back-reference to itself as part of its contract"; we record the call on the parent and
clear the adapter's `owner_`. -/
def ParentSessionState.RemoveLocalVideoTrack (p : ParentSessionState)
    (self : LocalVideoTrack) : ParentSessionState × LocalVideoTrack :=
  ({ removeCount := p.removeCount + 1 }, { self with owner_ := none })

/-- The externally visible steps of the destructor, in execution order. -/
inductive DtorStep where
  | sinkDetach : DtorStep
  | sessionRemoval : DtorStep
  | assertOwnerNull : DtorStep
deriving DecidableEq, Repr

/-- The destructor `LocalVideoTrack::~LocalVideoTrack()`: first
`track_->RemoveSink(this)`, then, if `owner_` is non-null,
`owner_->RemoveLocalVideoTrack(*this)`, and finally `RTC_CHECK(!owner_)` (modelled as
returning `none` if the back-reference is still set). The result carries the final track
and parent states together with the ordered step trace. -/
def LocalVideoTrack.destructor (self : LocalVideoTrack) (ts : TrackState)
    (p : ParentSessionState) :
    Option (TrackState × ParentSessionState × List DtorStep) :=
  let ts1 : TrackState := { ts with detachCount := ts.detachCount + 1 }
  let afterRemoval : ParentSessionState × LocalVideoTrack × List DtorStep :=
    match self.owner_ with
    | some _ =>
      let pr := p.RemoveLocalVideoTrack self
      (pr.1, pr.2, [DtorStep.sinkDetach, DtorStep.sessionRemoval])
    | none => (p, self, [DtorStep.sinkDetach])
  if afterRemoval.2.1.owner_.isNone then
    some (ts1, afterRemoval.1, afterRemoval.2.2 ++ [DtorStep.assertOwnerNull])
  else
    none

/-- An operation the consumer may perform on a live adapter between construction and
destruction: an enable/disable call or a removal from the engine peer session. -/
inductive AdapterOp where
  | setEnabled : Bool → AdapterOp
  | removeFromPeer : AdapterOp
deriving DecidableEq, Repr

/-- The adapter together with the external state its operations touch. -/
structure SysState where
  lvt : LocalVideoTrack
  ts : TrackState
  peer : EnginePeerState
deriving DecidableEq, Repr

/-- Apply one consumer operation to the combined state, using the adapter's methods. -/
def SysState.applyOp (s : SysState) : AdapterOp → SysState
  | AdapterOp.setEnabled b => { s with ts := s.lvt.SetEnabled b s.ts }
  | AdapterOp.removeFromPeer =>
    let r := s.lvt.RemoveFromPeerConnection s.peer
    { s with lvt := r.1, peer := r.2 }

/-- Apply a sequence of consumer operations, left to right. -/
def SysState.applyOps (s : SysState) (ops : List AdapterOp) : SysState :=
  ops.foldl SysState.applyOp s

/-- The Attached/Detached dichotomy: the sender reference is present exactly when the
session back-reference is present. -/
def AttachedDetachedInv (self : LocalVideoTrack) : Prop :=
  self.sender_.isSome = self.owner_.isSome

instance (self : LocalVideoTrack) : Decidable (AttachedDetachedInv self) := by
  unfold AttachedDetachedInv
  infer_instance

/-- C1: `RemoveFromPeerConnection` with a non-null sender invokes the engine session's
`RemoveTrack` with that sender and nulls both `sender_` and `owner_`; with a null sender
it is a no-op leaving adapter and engine state unchanged. -/
theorem C1_removeFromPeerConnection_spec (self : LocalVideoTrack) (peer : EnginePeerState) :
    (∀ s, self.sender_ = some s →
      self.RemoveFromPeerConnection peer =
        ({ self with sender_ := none, owner_ := none },
         { peer with removeTrackCalls := peer.removeTrackCalls ++ [s] })) ∧
    (self.sender_ = none → self.RemoveFromPeerConnection peer = (self, peer)) := by
  constructor
  · intro s hs
    simp [LocalVideoTrack.RemoveFromPeerConnection, hs, EnginePeerState.RemoveTrack]
  · intro hn
    simp [LocalVideoTrack.RemoveFromPeerConnection, hn]

/-- Witness for C1 at a concrete adapter with sender 3 and an empty engine call trace. -/
theorem C1_removeFromPeerConnection_spec_witness :
    LocalVideoTrack.RemoveFromPeerConnection
        { owner_ := some 1, track_ := 2, sender_ := some 3, interop_handle_ := 4 }
        { removeTrackCalls := [] } =
      ({ owner_ := none, track_ := 2, sender_ := none, interop_handle_ := 4 },
       { removeTrackCalls := [3] }) := by
  have h := C1_removeFromPeerConnection_spec
    { owner_ := some 1, track_ := 2, sender_ := some 3, interop_handle_ := 4 }
    { removeTrackCalls := [] }
  simpa using h.1 3 rfl

/-- C2: the destructor always detaches the sink first, performs session-side removal
exactly when the back-reference is non-null, and ends with the back-reference-null
assertion passing; the track records one more detach. -/
theorem C2_destructor_ordered_teardown (self : LocalVideoTrack) (ts : TrackState)
    (p : ParentSessionState) :
    self.destructor ts p =
      some ({ ts with detachCount := ts.detachCount + 1 },
            (if self.owner_.isSome then { removeCount := p.removeCount + 1 } else p),
            DtorStep.sinkDetach ::
              ((if self.owner_.isSome then [DtorStep.sessionRemoval] else []) ++
                [DtorStep.assertOwnerNull])) := by
  cases h : self.owner_ <;>
    simp [LocalVideoTrack.destructor, ParentSessionState.RemoveLocalVideoTrack, h]

/-- C3: removal is idempotent: running `RemoveFromPeerConnection` a second time on the
resulting state changes nothing, and when the sender was present the engine received
exactly one `RemoveTrack` call for it. -/
theorem C3_removeFromPeerConnection_idempotent (self : LocalVideoTrack)
    (peer : EnginePeerState) (s : Nat) (hs : self.sender_ = some s) :
    (self.RemoveFromPeerConnection peer).1.RemoveFromPeerConnection
        (self.RemoveFromPeerConnection peer).2 = self.RemoveFromPeerConnection peer ∧
    (self.RemoveFromPeerConnection peer).2.removeTrackCalls =
      peer.removeTrackCalls ++ [s] := by
  constructor
  · simp [LocalVideoTrack.RemoveFromPeerConnection, hs]
  · simp [LocalVideoTrack.RemoveFromPeerConnection, hs, EnginePeerState.RemoveTrack]

/-- Witness for C3 at a concrete attached adapter. -/
theorem C3_removeFromPeerConnection_idempotent_witness :
    (LocalVideoTrack.RemoveFromPeerConnection
        { owner_ := some 1, track_ := 2, sender_ := some 3, interop_handle_ := 4 }
        { removeTrackCalls := [] }).1.RemoveFromPeerConnection
      (LocalVideoTrack.RemoveFromPeerConnection
        { owner_ := some 1, track_ := 2, sender_ := some 3, interop_handle_ := 4 }
        { removeTrackCalls := [] }).2 =
      LocalVideoTrack.RemoveFromPeerConnection
        { owner_ := some 1, track_ := 2, sender_ := some 3, interop_handle_ := 4 }
        { removeTrackCalls := [] } ∧
    (LocalVideoTrack.RemoveFromPeerConnection
        { owner_ := some 1, track_ := 2, sender_ := some 3, interop_handle_ := 4 }
        { removeTrackCalls := [] }).2.removeTrackCalls = [3] := by
  have h := C3_removeFromPeerConnection_idempotent
    { owner_ := some 1, track_ := 2, sender_ := some 3, interop_handle_ := 4 }
    { removeTrackCalls := [] } 3 rfl
  simpa using h

/-- C4: constructing with a non-null owner succeeds and appends exactly one sink-attach
event to the track, with the rotation-applied flag set to `true`. -/
theorem C4_construct_single_attach_rotation_applied (o track : Nat) (sender : Option Nat)
    (interop_handle : Nat) (ts : TrackState) :
    LocalVideoTrack.construct (some o) track sender interop_handle ts =
      some ({ owner_ := some o, track_ := track, sender_ := sender,
              interop_handle_ := interop_handle },
            { ts with attachEvents := ts.attachEvents ++ [true] }) := by
  simp [LocalVideoTrack.construct]

/-- C5: construction with a null owner reference hits the fatal `RTC_CHECK` (modelled as
`none`), while construction with any non-null owner does not. -/
theorem C5_construct_null_owner_fatal (track : Nat) (sender : Option Nat)
    (interop_handle : Nat) (ts : TrackState) (o : Nat) :
    LocalVideoTrack.construct none track sender interop_handle ts = none ∧
    (LocalVideoTrack.construct (some o) track sender interop_handle ts).isSome := by
  constructor <;> simp [LocalVideoTrack.construct]

/-- Helper: one consumer operation preserves the Attached/Detached invariant. -/
theorem applyOp_preserves_inv (s : SysState) (op : AdapterOp)
    (h : AttachedDetachedInv s.lvt) : AttachedDetachedInv (s.applyOp op).lvt := by
  cases op with
  | setEnabled b => simpa [SysState.applyOp] using h
  | removeFromPeer =>
    cases hs : s.lvt.sender_ with
    | none => simpa [SysState.applyOp, LocalVideoTrack.RemoveFromPeerConnection, hs] using h
    | some v =>
      simp [SysState.applyOp, LocalVideoTrack.RemoveFromPeerConnection, hs,
        AttachedDetachedInv]

/-- Helper: any sequence of consumer operations preserves the Attached/Detached
invariant. -/
theorem applyOps_preserves_inv (s : SysState) (ops : List AdapterOp)
    (h : AttachedDetachedInv s.lvt) : AttachedDetachedInv (s.applyOps ops).lvt := by
  induction ops generalizing s with
  | nil => simpa [SysState.applyOps] using h
  | cons op rest ih =>
    have h1 := applyOp_preserves_inv s op h
    simpa [SysState.applyOps, List.foldl] using ih (s.applyOp op) h1

/-- C6: after a successful removal (sender was present), destruction does not call the
parent session's removal (the back-reference is already null), the final assertion
passes, and the track records its single detach. -/
theorem C6_destroy_after_removal (self : LocalVideoTrack) (peer : EnginePeerState)
    (ts : TrackState) (p : ParentSessionState) (s : Nat) (hs : self.sender_ = some s) :
    (self.RemoveFromPeerConnection peer).1.destructor ts p =
      some ({ ts with detachCount := ts.detachCount + 1 }, p,
            [DtorStep.sinkDetach, DtorStep.assertOwnerNull]) := by
  simp [LocalVideoTrack.RemoveFromPeerConnection, hs, LocalVideoTrack.destructor]

/-- Witness for C6 at a concrete attached adapter. -/
theorem C6_destroy_after_removal_witness :
    (LocalVideoTrack.RemoveFromPeerConnection
        { owner_ := some 1, track_ := 2, sender_ := some 3, interop_handle_ := 4 }
        { removeTrackCalls := [] }).1.destructor
        { enabled := true, attachEvents := [true], detachCount := 0 }
        { removeCount := 0 } =
      some ({ enabled := true, attachEvents := [true], detachCount := 1 },
            { removeCount := 0 },
            [DtorStep.sinkDetach, DtorStep.assertOwnerNull]) := by
  have h := C6_destroy_after_removal
    { owner_ := some 1, track_ := 2, sender_ := some 3, interop_handle_ := 4 }
    { removeTrackCalls := [] }
    { enabled := true, attachEvents := [true], detachCount := 0 }
    { removeCount := 0 } 3 rfl
  simpa using h

/-- C7: from a validly constructed adapter (non-null owner and non-null sender), every
state reachable by enable/disable calls and removals satisfies the Attached/Detached
dichotomy: the sender reference is present iff the session back-reference is present. -/
theorem C7_attached_detached_invariant (o track s interop_handle : Nat)
    (ts ts0 : TrackState) (peer : EnginePeerState) (lvt : LocalVideoTrack)
    (hcons : LocalVideoTrack.construct (some o) track (some s) interop_handle ts =
      some (lvt, ts0)) (ops : List AdapterOp) :
    AttachedDetachedInv ((SysState.applyOps { lvt := lvt, ts := ts0, peer := peer } ops).lvt) := by
  have hlvt : lvt =
      { owner_ := some o, track_ := track, sender_ := some s,
        interop_handle_ := interop_handle } := by
    simp [LocalVideoTrack.construct] at hcons
    exact hcons.1.symm
  apply applyOps_preserves_inv
  simp [hlvt, AttachedDetachedInv]

/-- Witness for C7: a concrete construction followed by a removal and an enable call. -/
theorem C7_attached_detached_invariant_witness :
    AttachedDetachedInv ((SysState.applyOps
      { lvt := { owner_ := some 1, track_ := 2, sender_ := some 3, interop_handle_ := 4 },
        ts := { enabled := true, attachEvents := [true], detachCount := 0 },
        peer := { removeTrackCalls := [] } }
      [AdapterOp.removeFromPeer, AdapterOp.setEnabled false]).lvt) := by
  exact C7_attached_detached_invariant 1 2 3 4
    { enabled := true, attachEvents := [], detachCount := 0 }
    { enabled := true, attachEvents := [true], detachCount := 0 }
    { removeTrackCalls := [] }
    { owner_ := some 1, track_ := 2, sender_ := some 3, interop_handle_ := 4 }
    rfl [AdapterOp.removeFromPeer, AdapterOp.setEnabled false]

/-- C8: the enabled query returns exactly the track's enabled flag and nothing else, and
the mutation writes its argument to the track's enabled flag without touching any other
state or caching locally: any adapter sharing the track observes the new value. -/
theorem C8_enabled_forwarding (self other : LocalVideoTrack) (b : Bool)
    (ts : TrackState) :
    self.IsEnabled ts = ts.enabled ∧
    (self.SetEnabled b ts).enabled = b ∧
    other.IsEnabled (self.SetEnabled b ts) = b ∧
    (self.SetEnabled b ts).attachEvents = ts.attachEvents ∧
    (self.SetEnabled b ts).detachCount = ts.detachCount := by
  refine ⟨rfl, rfl, rfl, rfl, rfl⟩

/-- C9: removal leaves `track_` and `interop_handle_` unchanged, and the enabled query
and mutation behave on the post-removal adapter exactly as before removal. -/
theorem C9_removal_preserves_track_and_handle (self : LocalVideoTrack)
    (peer : EnginePeerState) (b : Bool) (ts : TrackState) :
    (self.RemoveFromPeerConnection peer).1.track_ = self.track_ ∧
    (self.RemoveFromPeerConnection peer).1.interop_handle_ = self.interop_handle_ ∧
    (self.RemoveFromPeerConnection peer).1.IsEnabled ts = self.IsEnabled ts ∧
    (self.RemoveFromPeerConnection peer).1.SetEnabled b ts = self.SetEnabled b ts := by
  cases hs : self.sender_ <;>
    simp [LocalVideoTrack.RemoveFromPeerConnection, hs, LocalVideoTrack.IsEnabled,
      LocalVideoTrack.SetEnabled]

/-- C10: the constructor checks only the owner: a null sender is accepted without any
assertion; on such an adapter removal is a no-op (the back-reference is never cleared by
removal), and destruction still invokes the parent session's removal. -/
theorem C10_null_sender_accepted (o track interop_handle : Nat) (ts ts0 : TrackState)
    (peer : EnginePeerState) (p : ParentSessionState) (lvt : LocalVideoTrack)
    (hcons : LocalVideoTrack.construct (some o) track none interop_handle ts =
      some (lvt, ts0)) :
    lvt.sender_ = none ∧
    lvt.owner_ = some o ∧
    lvt.RemoveFromPeerConnection peer = (lvt, peer) ∧
    lvt.destructor ts0 p =
      some ({ ts0 with detachCount := ts0.detachCount + 1 },
            { removeCount := p.removeCount + 1 },
            [DtorStep.sinkDetach, DtorStep.sessionRemoval, DtorStep.assertOwnerNull]) := by
  have hlvt : lvt =
      { owner_ := some o, track_ := track, sender_ := none,
        interop_handle_ := interop_handle } := by
    simp [LocalVideoTrack.construct] at hcons
    exact hcons.1.symm
  subst hlvt
  refine ⟨rfl, rfl, ?_, ?_⟩
  · simp [LocalVideoTrack.RemoveFromPeerConnection]
  · simp [LocalVideoTrack.destructor, ParentSessionState.RemoveLocalVideoTrack]

/-- Witness for C10 at a concrete adapter constructed with a null sender. -/
theorem C10_null_sender_accepted_witness :
    ({ owner_ := some 1, track_ := 2, sender_ := none,
       interop_handle_ := 4 : LocalVideoTrack}).RemoveFromPeerConnection
        { removeTrackCalls := [] } =
      ({ owner_ := some 1, track_ := 2, sender_ := none, interop_handle_ := 4 },
       { removeTrackCalls := [] }) ∧
    ({ owner_ := some 1, track_ := 2, sender_ := none,
       interop_handle_ := 4 : LocalVideoTrack}).destructor
        { enabled := true, attachEvents := [true], detachCount := 0 }
        { removeCount := 0 } =
      some ({ enabled := true, attachEvents := [true], detachCount := 1 },
            { removeCount := 1 },
            [DtorStep.sinkDetach, DtorStep.sessionRemoval, DtorStep.assertOwnerNull]) := by
  have h := C10_null_sender_accepted 1 2 4
    { enabled := true, attachEvents := [], detachCount := 0 }
    { enabled := true, attachEvents := [true], detachCount := 0 }
    { removeTrackCalls := [] } { removeCount := 0 }
    { owner_ := some 1, track_ := 2, sender_ := none, interop_handle_ := 4 }
    rfl
  exact ⟨h.2.2.1, h.2.2.2⟩
